import Mathlib

/-!
# Verification of the fates-app persistence layer (src-tauri/src/database.rs)

Shallow embedding of the repository layer: each SQLite table is a `List` of
row records, and each repository operation is a Lean function on those lists,
translated statement-by-statement from the Rust source.

Conventions:
* `DateTime<Utc>` values are modelled as `Int` (Unix timestamps); `Utc::now()`
  becomes an explicit `now : Int` argument on the operations that call it.
* SQL statements translate as follows: `INSERT` appends (erroring with
  `constraintViolation` when the primary key is already present), `UPDATE ... WHERE`
  maps over the rows rewriting exactly the columns the statement sets,
  `DELETE ... WHERE` filters, `SELECT ... WHERE ... ORDER BY` filters and sorts.
* `prepare` is modelled for the single-row `get_by_id` lookups: their SQL text
  is embedded literally and checked for the one syntactic property SQLite's
  grammar demands of a `SELECT` (a non-empty result-column list); a malformed
  statement yields `DbError.sqlSyntax`, as `Connection::prepare` does.
* Lock acquisition (`conn.conn.write().unwrap()`) is modelled for `Matter::create`
  via `SafeConnection`/`LockResult`/`Outcome`: a poisoned `RwLock` makes
  `write()` return an error which `.unwrap()` turns into a panic.
-/

namespace Fates

/-- Errors a repository call can surface (rusqlite failures, by category). -/
inductive DbError : Type
  | sqlSyntax
  | constraintViolation
  | internalLockError
deriving DecidableEq, Repr

/-- Row of table `matter` (struct `Matter` in database.rs). -/
structure Matter : Type where
  id : String
  title : String
  description : Option String
  tags : Option String
  start_time : Int
  end_time : Int
  priority : Int
  type_ : Int
  created_at : Int
  updated_at : Int
  reserved_1 : Option String
  reserved_2 : Option String
  reserved_3 : Option String
  reserved_4 : Option String
  reserved_5 : Option String
deriving DecidableEq, Repr

/-- Row of table `repeat_task` (struct `RepeatTask`). -/
structure RepeatTask : Type where
  id : String
  title : String
  tags : Option String
  repeat_time : String
  status : Int
  created_at : Int
  updated_at : Int
  priority : Int
  description : Option String
deriving DecidableEq, Repr

/-- Row of table `kvstore` (struct `KVStore`). -/
structure KVRow : Type where
  key : String
  value : String
  created_at : Int
  updated_at : Int
deriving DecidableEq, Repr

/-- Row of table `tags` (struct `Tag`). -/
structure Tag : Type where
  name : String
  created_at : Int
  last_used_at : Int
deriving DecidableEq, Repr

/-- Row of table `todo` (struct `Todo`). -/
structure Todo : Type where
  id : String
  title : String
  status : String
  created_at : Int
  updated_at : Int
deriving DecidableEq, Repr

/-- Row of table `notification_records` (struct `NotificationRecord`). -/
structure NotificationRecord : Type where
  id : String
  title : String
  content : String
  type_ : Int
  status : Int
  related_task_id : Option String
  created_at : Int
  read_at : Option Int
  expire_at : Option Int
  action_url : Option String
  reserved_1 : Option String
  reserved_2 : Option String
  reserved_3 : Option String
  reserved_4 : Option String
  reserved_5 : Option String
deriving DecidableEq, Repr

/-- `NotificationStatus::Unread as i32`. -/
def unreadStatus : Int := 0

/-- `NotificationStatus::Read as i32`. -/
def readStatus : Int := 1

/-! ## SQL `prepare` model for the `get_by_id` statements -/

/-- Splits a SQL text into whitespace-separated words (structural recursion
over the character list, so it evaluates in the kernel). -/
def wordsAux : List Char → List Char → List String
  | [], acc => if acc.isEmpty then [] else [String.mk acc.reverse]
  | c :: rest, acc =>
    if c = ' ' ∨ c = '\n' then
      if acc.isEmpty then wordsAux rest [] else String.mk acc.reverse :: wordsAux rest []
    else wordsAux rest (c :: acc)

/-- Word list of a SQL statement text. -/
def sqlWords (sql : String) : List String :=
  wordsAux sql.data []

/-- SQLite's grammar requires at least one result column between `SELECT` and
`FROM`; `Connection::prepare` fails with a syntax error otherwise. -/
def sqlSelectWellFormed (sql : String) : Bool :=
  match sqlWords sql with
  | "SELECT" :: w :: _ => w ≠ "FROM"
  | _ => false

/-- database.rs line 281. -/
def matterGetByIdSql : String := "SELECT * FROM matter WHERE id = ?1"

/-- database.rs line 565. -/
def repeatTaskGetByIdSql : String := "SELECT * FROM repeat_task WHERE id = ?1"

/-- database.rs line 689: the result-column list is missing. -/
def todoGetByIdSql : String := "SELECT FROM todo WHERE id = ?1"

/-- database.rs line 840. -/
def notificationGetByIdSql : String := "SELECT * FROM notification_records WHERE id = ?1"

instance {ε α : Type} [DecidableEq ε] [DecidableEq α] : DecidableEq (Except ε α) := fun a b =>
  match a, b with
  | .ok x, .ok y =>
    if h : x = y then .isTrue (by rw [h]) else .isFalse (fun hc => by cases hc; exact h rfl)
  | .error x, .error y =>
    if h : x = y then .isTrue (by rw [h]) else .isFalse (fun hc => by cases hc; exact h rfl)
  | .ok _, .error _ => .isFalse (fun hc => Except.noConfusion hc)
  | .error _, .ok _ => .isFalse (fun hc => Except.noConfusion hc)

/-! ## Sort orders used by the `ORDER BY` clauses -/

/-- `ORDER BY start_time` on `matter`. -/
def matterLe (a b : Matter) : Prop := a.start_time ≤ b.start_time

instance : DecidableRel matterLe := fun a b =>
  inferInstanceAs (Decidable (a.start_time ≤ b.start_time))

instance : IsTotal Matter matterLe :=
  ⟨fun a b => Int.le_total a.start_time b.start_time⟩

instance : IsTrans Matter matterLe :=
  ⟨fun _ _ _ hab hbc => le_trans hab hbc⟩

/-- `ORDER BY created_at DESC` on `repeat_task`. -/
def repeatTaskGe (a b : RepeatTask) : Prop := b.created_at ≤ a.created_at

instance : DecidableRel repeatTaskGe := fun a b =>
  inferInstanceAs (Decidable (b.created_at ≤ a.created_at))

instance : IsTotal RepeatTask repeatTaskGe :=
  ⟨fun a b => (Int.le_total b.created_at a.created_at).imp id id⟩

instance : IsTrans RepeatTask repeatTaskGe :=
  ⟨fun _ _ _ hab hbc => le_trans hbc hab⟩

/-- `ORDER BY created_at DESC` on `todo`. -/
def todoGe (a b : Todo) : Prop := b.created_at ≤ a.created_at

instance : DecidableRel todoGe := fun a b =>
  inferInstanceAs (Decidable (b.created_at ≤ a.created_at))

instance : IsTotal Todo todoGe :=
  ⟨fun a b => (Int.le_total b.created_at a.created_at).imp id id⟩

instance : IsTrans Todo todoGe :=
  ⟨fun _ _ _ hab hbc => le_trans hbc hab⟩

/-- `ORDER BY created_at DESC` on `notification_records`. -/
def notificationGe (a b : NotificationRecord) : Prop := b.created_at ≤ a.created_at

instance : DecidableRel notificationGe := fun a b =>
  inferInstanceAs (Decidable (b.created_at ≤ a.created_at))

instance : IsTotal NotificationRecord notificationGe :=
  ⟨fun a b => (Int.le_total b.created_at a.created_at).imp id id⟩

instance : IsTrans NotificationRecord notificationGe :=
  ⟨fun _ _ _ hab hbc => le_trans hbc hab⟩

/-- `ORDER BY name` on `tags`. -/
def tagLe (a b : Tag) : Prop := a.name ≤ b.name

instance : DecidableRel tagLe := fun a b =>
  inferInstanceAs (Decidable (a.name ≤ b.name))

instance : IsTotal Tag tagLe :=
  ⟨fun a b => le_total a.name b.name⟩

instance : IsTrans Tag tagLe :=
  ⟨fun _ _ _ hab hbc => le_trans hab hbc⟩

/-! ## Matter (Event) repository -/

/-- `Matter::create` (database.rs 248-277): plain `INSERT INTO matter`; a
duplicate primary key is a SQLITE_CONSTRAINT failure. -/
def Matter.create (db : List Matter) (m : Matter) : Except DbError (List Matter) :=
  if db.any (fun r => r.id = m.id) then .error .constraintViolation
  else .ok (db ++ [m])

/-- `Matter::get_by_id` (database.rs 279-306): prepares `matterGetByIdSql`,
then `query_row(...).optional()` returns the first matching row or `none`. -/
def Matter.get_by_id (db : List Matter) (id : String) : Except DbError (Option Matter) :=
  if sqlSelectWellFormed matterGetByIdSql then .ok (db.find? (fun r => r.id = id))
  else .error .sqlSyntax

/-- `Matter::get_all` (database.rs 308-333): `SELECT * FROM matter ORDER BY start_time`. -/
def Matter.get_all (db : List Matter) : List Matter :=
  List.insertionSort matterLe db

/-- The `WHERE` clause of `Matter::get_by_time_range` (database.rs 342-346):
`(start_time BETWEEN ?1 AND ?2) OR (end_time BETWEEN ?1 AND ?2)
 OR (start_time <= ?1 AND end_time >= ?2)`. -/
def timeRangeCond (s e : Int) (m : Matter) : Bool :=
  (decide (s ≤ m.start_time) && decide (m.start_time ≤ e))
    || (decide (s ≤ m.end_time) && decide (m.end_time ≤ e))
    || (decide (m.start_time ≤ s) && decide (e ≤ m.end_time))

/-- `Matter::get_by_time_range` (database.rs 335-372): filter by the overlap
clause, `ORDER BY start_time`. -/
def Matter.get_by_time_range (db : List Matter) (s e : Int) : List Matter :=
  List.insertionSort matterLe (db.filter (timeRangeCond s e))

/-- `Matter::update` (database.rs 374-402): `UPDATE matter SET` every column
except `id` and `created_at`, `WHERE id = ?14`. -/
def Matter.update (db : List Matter) (m : Matter) : Except DbError (List Matter) :=
  .ok (db.map (fun r =>
    if r.id = m.id then
      { r with
        title := m.title, description := m.description, tags := m.tags,
        start_time := m.start_time, end_time := m.end_time, priority := m.priority,
        type_ := m.type_, updated_at := m.updated_at,
        reserved_1 := m.reserved_1, reserved_2 := m.reserved_2,
        reserved_3 := m.reserved_3, reserved_4 := m.reserved_4,
        reserved_5 := m.reserved_5 }
    else r))

/-- `Matter::delete` (database.rs 404-408): `DELETE FROM matter WHERE id = ?1`. -/
def Matter.delete (db : List Matter) (id : String) : Except DbError (List Matter) :=
  .ok (db.filter (fun r => r.id ≠ id))

/-! ## Connection guard (`SafeConnection`, database.rs 127-140)

Every repository call acquires the `RwLock` with
`conn.conn.write().unwrap()` / `conn.conn.read().unwrap()`. On a lock
poisoned by a panic in another holder, `write()`/`read()` return `Err`,
and `.unwrap()` turns that `Err` into a panic of the calling thread. -/

/-- A shared connection: the lock's poison flag plus the guarded state
(shown here for the `matter` table, which `Matter::create` mutates). -/
structure SafeConnection : Type where
  poisoned : Bool
  matters : List Matter
deriving DecidableEq, Repr

/-- Result of `RwLock::write()` / `RwLock::read()`. -/
inductive LockResult (α : Type) : Type
  | granted (a : α)
  | poisonError
deriving DecidableEq, Repr

/-- How a repository call can end, seen from the caller. -/
inductive Outcome (α : Type) : Type
  | panicked
  | returned (a : α)
deriving DecidableEq, Repr

/-- `conn.conn.write()`: errors iff the lock is poisoned. -/
def SafeConnection.write (c : SafeConnection) : LockResult (List Matter) :=
  if c.poisoned then .poisonError else .granted c.matters

/-- `Result::unwrap()` on a lock result: panics on `Err`. -/
def lockUnwrap {α : Type} : LockResult α → Outcome α
  | .granted a => .returned a
  | .poisonError => .panicked

/-- `Matter::create` including its first line
`let conn = conn.conn.write().unwrap();` (database.rs 249). -/
def Matter.createLocked (c : SafeConnection) (m : Matter) :
    Outcome (Except DbError (List Matter)) :=
  match lockUnwrap c.write with
  | .panicked => .panicked
  | .returned db => .returned (Matter.create db m)

/-! ## KVStore repository -/

/-- `KVStore::set` (database.rs 468-479): `INSERT ... ON CONFLICT(key) DO
UPDATE SET value = ?2, updated_at = ?3`; `now` is the single `Utc::now()`
bound to `?3` (used for both timestamps on first insert). -/
def KVStore.set (db : List KVRow) (key value : String) (now : Int) : List KVRow :=
  if db.any (fun r => r.key = key) then
    db.map (fun r => if r.key = key then { r with value := value, updated_at := now } else r)
  else
    db ++ [{ key := key, value := value, created_at := now, updated_at := now }]

/-- `KVStore::get` (database.rs 481-486): `SELECT value ... WHERE key = ?1`,
`.optional()`, then `unwrap_or(default)`. -/
def KVStore.get (db : List KVRow) (key dflt : String) : String :=
  match db.find? (fun r => r.key = key) with
  | some r => r.value
  | none => dflt

/-- `KVStore::delete` (database.rs 488-492). -/
def KVStore.delete (db : List KVRow) (key : String) : Except DbError (List KVRow) :=
  .ok (db.filter (fun r => r.key ≠ key))

/-! ## Tag repository -/

/-- The table state after `Tag::create`'s `INSERT OR IGNORE INTO tags`
(database.rs 497-504): a duplicate name leaves the table unchanged. -/
def Tag.createVal (db : List Tag) (name : String) (nowC nowL : Int) : List Tag :=
  if db.any (fun r => r.name = name) then db
  else db ++ [{ name := name, created_at := nowC, last_used_at := nowL }]

/-- `Tag::create` (database.rs 497-504): `INSERT OR IGNORE INTO tags`; the two
`Utc::now()` calls bound to `?2` and `?3` are `nowC` and `nowL`. A duplicate
name is ignored, never an error. -/
def Tag.create (db : List Tag) (name : String) (nowC nowL : Int) :
    Except DbError (List Tag) :=
  .ok (Tag.createVal db name nowC nowL)

/-- `Tag::get_all` (database.rs 506-519): `SELECT * FROM tags ORDER BY name`. -/
def Tag.get_all (db : List Tag) : List Tag :=
  List.insertionSort tagLe db

/-- `Tag::delete` (database.rs 530-534). -/
def Tag.delete (db : List Tag) (name : String) : Except DbError (List Tag) :=
  .ok (db.filter (fun r => r.name ≠ name))

/-! ## RepeatTask repository -/

/-- `RepeatTask::create` (database.rs 539-561): plain `INSERT INTO repeat_task`. -/
def RepeatTask.create (db : List RepeatTask) (t : RepeatTask) :
    Except DbError (List RepeatTask) :=
  if db.any (fun r => r.id = t.id) then .error .constraintViolation
  else .ok (db ++ [t])

/-- `RepeatTask::get_by_id` (database.rs 563-584). -/
def RepeatTask.get_by_id (db : List RepeatTask) (id : String) :
    Except DbError (Option RepeatTask) :=
  if sqlSelectWellFormed repeatTaskGetByIdSql then .ok (db.find? (fun r => r.id = id))
  else .error .sqlSyntax

/-- `RepeatTask::get_all` (database.rs 586-605):
`SELECT * FROM repeat_task ORDER BY created_at DESC`. -/
def RepeatTask.get_all (db : List RepeatTask) : List RepeatTask :=
  List.insertionSort repeatTaskGe db

/-- `RepeatTask::update` (database.rs 629-653): sets `title, tags, repeat_time,
status, updated_at, priority, description` `WHERE id = ?8`. -/
def RepeatTask.update (db : List RepeatTask) (t : RepeatTask) :
    Except DbError (List RepeatTask) :=
  .ok (db.map (fun r =>
    if r.id = t.id then
      { r with
        title := t.title, tags := t.tags, repeat_time := t.repeat_time,
        status := t.status, updated_at := t.updated_at, priority := t.priority,
        description := t.description }
    else r))

/-- `RepeatTask::delete` (database.rs 655-659). -/
def RepeatTask.delete (db : List RepeatTask) (id : String) :
    Except DbError (List RepeatTask) :=
  .ok (db.filter (fun r => r.id ≠ id))

/-! ## Todo repository -/

/-- `Todo::create` (database.rs 672-686): plain `INSERT INTO todo`. -/
def Todo.create (db : List Todo) (t : Todo) : Except DbError (List Todo) :=
  if db.any (fun r => r.id = t.id) then .error .constraintViolation
  else .ok (db ++ [t])

/-- `Todo::get_by_id` (database.rs 687-702): prepares `todoGetByIdSql`, whose
result-column list is missing, so `prepare` fails before any row is read. -/
def Todo.get_by_id (db : List Todo) (id : String) : Except DbError (Option Todo) :=
  if sqlSelectWellFormed todoGetByIdSql then .ok (db.find? (fun r => r.id = id))
  else .error .sqlSyntax

/-- `Todo::get_all` (database.rs 703-718):
`SELECT * FROM todo ORDER BY created_at DESC`. -/
def Todo.get_all (db : List Todo) : List Todo :=
  List.insertionSort todoGe db

/-- `Todo::update` (database.rs 720-731): sets `title, status, updated_at`
`WHERE id = ?4`. -/
def Todo.update (db : List Todo) (t : Todo) : Except DbError (List Todo) :=
  .ok (db.map (fun r =>
    if r.id = t.id then
      { r with title := t.title, status := t.status, updated_at := t.updated_at }
    else r))

/-- `Todo::delete` (database.rs 733-737). -/
def Todo.delete (db : List Todo) (id : String) : Except DbError (List Todo) :=
  .ok (db.filter (fun r => r.id ≠ id))

/-! ## NotificationRecord repository -/

/-- `NotificationRecord::create` (database.rs 741-770): plain `INSERT`. -/
def NotificationRecord.create (db : List NotificationRecord) (n : NotificationRecord) :
    Except DbError (List NotificationRecord) :=
  if db.any (fun r => r.id = n.id) then .error .constraintViolation
  else .ok (db ++ [n])

/-- `NotificationRecord::get_by_id` (database.rs 838-865). -/
def NotificationRecord.get_by_id (db : List NotificationRecord) (id : String) :
    Except DbError (Option NotificationRecord) :=
  if sqlSelectWellFormed notificationGetByIdSql then .ok (db.find? (fun r => r.id = id))
  else .error .sqlSyntax

/-- `NotificationRecord::get_unread` (database.rs 772-803):
`WHERE status = 0 ORDER BY created_at DESC` (descending by `created_at`,
modelled as the filtered list sorted by that key). -/
def NotificationRecord.get_unread (db : List NotificationRecord) : List NotificationRecord :=
  List.insertionSort notificationGe (db.filter (fun r => r.status = unreadStatus))

/-- `NotificationRecord::mark_as_read` (database.rs 805-814):
`UPDATE ... SET status = 1, read_at = now WHERE id = ?3` — no status guard, so
it restamps `read_at` even on a row that is already read. -/
def NotificationRecord.mark_as_read (db : List NotificationRecord) (id : String) (now : Int) :
    Except DbError (List NotificationRecord) :=
  .ok (db.map (fun r =>
    if r.id = id then { r with status := readStatus, read_at := some now } else r))

/-- `NotificationRecord::mark_as_read_by_type` (database.rs 815-822):
`UPDATE ... SET status = 1, read_at = now WHERE type = ?3`. -/
def NotificationRecord.mark_as_read_by_type (db : List NotificationRecord) (type_ now : Int) :
    Except DbError (List NotificationRecord) :=
  .ok (db.map (fun r =>
    if r.type_ = type_ then { r with status := readStatus, read_at := some now } else r))

/-- `NotificationRecord::mark_all_as_read` (database.rs 823-836):
`UPDATE ... SET status = 1, read_at = now WHERE status = 0` — only unread rows. -/
def NotificationRecord.mark_all_as_read (db : List NotificationRecord) (now : Int) :
    Except DbError (List NotificationRecord) :=
  .ok (db.map (fun r =>
    if r.status = unreadStatus then { r with status := readStatus, read_at := some now } else r))

/-- `NotificationRecord::update` (database.rs 867-901): sets `title, content,
type, status, related_task_id, expire_at, action_url, reserved_1..5`
`WHERE id = ?13`; it does not touch `created_at` or `read_at`. -/
def NotificationRecord.update (db : List NotificationRecord) (n : NotificationRecord) :
    Except DbError (List NotificationRecord) :=
  .ok (db.map (fun r =>
    if r.id = n.id then
      { r with
        title := n.title, content := n.content, type_ := n.type_,
        status := n.status, related_task_id := n.related_task_id,
        expire_at := n.expire_at, action_url := n.action_url,
        reserved_1 := n.reserved_1, reserved_2 := n.reserved_2,
        reserved_3 := n.reserved_3, reserved_4 := n.reserved_4,
        reserved_5 := n.reserved_5 }
    else r))

/-- `NotificationRecord::delete` (database.rs 903-910). -/
def NotificationRecord.delete (db : List NotificationRecord) (id : String) :
    Except DbError (List NotificationRecord) :=
  .ok (db.filter (fun r => r.id ≠ id))

/-! ## Spec-side predicate and concrete example rows -/

/-- The spec's interval-overlap condition, written as the spec words it:
"start within range, OR end within range, OR the event's interval fully spans
the query range". Compared against `timeRangeCond`, the embedded `WHERE`
clause of `Matter::get_by_time_range`. -/
def overlapsSpec (s e : Int) (m : Matter) : Prop :=
  (s ≤ m.start_time ∧ m.start_time ≤ e)
  ∨ (s ≤ m.end_time ∧ m.end_time ≤ e)
  ∨ (m.start_time ≤ s ∧ e ≤ m.end_time)

/-- The spec's example event A: start = 10, end = 20. -/
def mEx : Matter :=
  { id := "A", title := "event A", description := none, tags := none,
    start_time := 10, end_time := 20, priority := 0, type_ := 0,
    created_at := 1, updated_at := 1, reserved_1 := none, reserved_2 := none,
    reserved_3 := none, reserved_4 := none, reserved_5 := none }

/-- A concrete todo row. -/
def todoEx : Todo :=
  { id := "t1", title := "buy milk", status := "todo", created_at := 3, updated_at := 4 }

/-- A concrete already-read notification: status = Read, read_at = some 5. -/
def nEx : NotificationRecord :=
  { id := "n1", title := "hello", content := "body", type_ := 2, status := 1,
    related_task_id := none, created_at := 0, read_at := some 5,
    expire_at := none, action_url := none, reserved_1 := none, reserved_2 := none,
    reserved_3 := none, reserved_4 := none, reserved_5 := none }

/-- A concrete recurring task row. -/
def rtEx : RepeatTask :=
  { id := "r1", title := "water plants", tags := none, repeat_time := "daily",
    status := 1, created_at := 7, updated_at := 7, priority := 0, description := none }

/-- A concrete key-value row. -/
def kvEx : KVRow := { key := "other", value := "x", created_at := 0, updated_at := 0 }

/-- A concrete tag row. -/
def tagEx : Tag := { name := "x", created_at := 1, last_used_at := 2 }

/-! ## Helper lemmas -/

/-- A map whose function fixes every element of the list is the identity. -/
theorem map_fixed {α : Type} (f : α → α) :
    ∀ l : List α, (∀ a ∈ l, f a = a) → l.map f = l
  | [], _ => rfl
  | a :: t, h => by
    rw [List.map_cons, h a (List.mem_cons_self a t),
      map_fixed f t (fun b hb => h b (List.mem_cons_of_mem a hb))]

/-- `find?` skips a prefix on which the predicate is everywhere false. -/
theorem find?_append_none {α : Type} (p : α → Bool) :
    ∀ l m : List α, (∀ a ∈ l, p a = false) → List.find? p (l ++ m) = List.find? p m
  | [], _, _ => rfl
  | a :: t, m, h => by
    rw [List.cons_append, List.find?_cons, h a (List.mem_cons_self a t),
      find?_append_none p t m (fun b hb => h b (List.mem_cons_of_mem a hb))]

/-- With pairwise-distinct names (the `tags` primary key), a name that occurs
in the table occurs in exactly one row. -/
theorem tag_filter_len_one :
    ∀ (db : List Tag) (name : String),
      (db.map (fun r => r.name)).Nodup →
      db.any (fun r => r.name = name) = true →
      (db.filter (fun r => r.name = name)).length = 1 := by
  intro db
  induction db with
  | nil => intro name _ hany; simp at hany
  | cons a t ih =>
    intro name hnd hany
    rw [List.map_cons, List.nodup_cons] at hnd
    by_cases ha : a.name = name
    · have htnone : ∀ r ∈ t, ¬ r.name = name := by
        intro r hr hrn
        exact hnd.1 (by rw [ha, ← hrn]; exact List.mem_map_of_mem _ hr)
      rw [List.filter_cons_of_pos (by simpa using ha),
        List.filter_eq_nil_iff.mpr (by intro r hr; simpa using htnone r hr)]
      rfl
    · rw [List.filter_cons_of_neg (by simpa using ha)]
      refine ih name hnd.2 ?_
      rw [List.any_cons] at hany
      simpa [ha] using hany

/-- The embedded `WHERE` clause agrees with the spec's three disjuncts. -/
theorem timeRangeCond_iff_overlapsSpec (s e : Int) (m : Matter) :
    timeRangeCond s e m = true ↔ overlapsSpec s e m := by
  simp [timeRangeCond, overlapsSpec, or_assoc]

/-! ## Claim theorems -/

/-- C1: `get_by_id` on an absent id returns an explicit empty result and never
an error — true for Matter, RepeatTask and NotificationRecord, but false for
Todo: its statement text `SELECT FROM todo WHERE id = ?1` has no result-column
list, so `prepare` fails and the call returns an error, not an empty result. -/
theorem c1_get_by_id_absent :
    Matter.get_by_id [] "missing" = .ok none
    ∧ RepeatTask.get_by_id [] "missing" = .ok none
    ∧ NotificationRecord.get_by_id [] "missing" = .ok none
    ∧ Todo.get_by_id [] "missing" = .error .sqlSyntax :=
  ⟨rfl, rfl, rfl, rfl⟩

/-- C9: the create/get_by_id round trip fails for Todo: `Todo::create`
succeeds and stores the row, but `Todo::get_by_id` on the stored id returns a
SQL syntax error (malformed `SELECT FROM todo`), not the created value. -/
theorem c9_todo_round_trip_fails :
    Todo.create [] todoEx = .ok [todoEx]
    ∧ Todo.get_by_id [todoEx] todoEx.id = .error .sqlSyntax :=
  ⟨rfl, rfl⟩

/-- C3 counterexample: with a poisoned lock, `Matter::create` panics (the
`unwrap()` of the poisoned `write()` result); it does not return an
`internalLockError` error result as the claim states. -/
theorem c3_counterexample :
    Matter.createLocked { poisoned := true, matters := [] } mEx = .panicked
    ∧ Matter.createLocked { poisoned := true, matters := [] } mEx
        ≠ .returned (.error .internalLockError) :=
  ⟨rfl, by decide⟩

/-- C3 (amended): if the shared connection lock is poisoned by a prior panic
in another holder, the repository operation panics — `unwrap()` propagates the
poison — rather than returning any error result to the caller. -/
theorem c3_poisoned_lock_panics (c : SafeConnection) (m : Matter)
    (h : c.poisoned = true) :
    Matter.createLocked c m = .panicked := by
  simp [Matter.createLocked, SafeConnection.write, h, lockUnwrap]

/-- Witness for `c3_poisoned_lock_panics` at a concrete poisoned connection. -/
theorem c3_poisoned_lock_panics_witness :
    ({ poisoned := true, matters := [mEx] } : SafeConnection).poisoned = true
    ∧ Matter.createLocked { poisoned := true, matters := [mEx] } mEx = .panicked :=
  ⟨rfl, c3_poisoned_lock_panics { poisoned := true, matters := [mEx] } mEx rfl⟩

/-- C4: `Matter::get_by_time_range` returns exactly the stored events whose
interval overlaps the query range under the spec's three disjunctive
conditions, ordered by `start_time`; in particular the event with
start = 10, end = 20 is included for queries (15, 25) and (0, 100) and
excluded for (21, 30) and (5, 9). -/
theorem c4_time_range_overlap :
    (∀ (db : List Matter) (s e : Int) (m : Matter),
      m ∈ Matter.get_by_time_range db s e ↔ m ∈ db ∧ overlapsSpec s e m)
    ∧ (∀ (db : List Matter) (s e : Int),
      (Matter.get_by_time_range db s e).Sorted matterLe)
    ∧ mEx ∈ Matter.get_by_time_range [mEx] 15 25
    ∧ mEx ∈ Matter.get_by_time_range [mEx] 0 100
    ∧ mEx ∉ Matter.get_by_time_range [mEx] 21 30
    ∧ mEx ∉ Matter.get_by_time_range [mEx] 5 9 := by
  refine ⟨fun db s e m => ?_, fun db s e => List.sorted_insertionSort _ _, ?_, ?_, ?_, ?_⟩
  · rw [Matter.get_by_time_range, (List.perm_insertionSort matterLe _).mem_iff,
      List.mem_filter, timeRangeCond_iff_overlapsSpec]
  all_goals decide

/-- C7: each `get_all` returns every row of its table (a permutation of the
stored rows) in its deterministic order: Matter ascending by `start_time`,
RepeatTask and Todo descending by `created_at`, Tag ascending by `name`. -/
theorem c7_get_all_ordered :
    (∀ db : List Matter,
      List.Perm (Matter.get_all db) db ∧ (Matter.get_all db).Sorted matterLe)
    ∧ (∀ db : List RepeatTask,
      List.Perm (RepeatTask.get_all db) db ∧ (RepeatTask.get_all db).Sorted repeatTaskGe)
    ∧ (∀ db : List Todo,
      List.Perm (Todo.get_all db) db ∧ (Todo.get_all db).Sorted todoGe)
    ∧ (∀ db : List Tag,
      List.Perm (Tag.get_all db) db ∧ (Tag.get_all db).Sorted tagLe) :=
  ⟨fun db => ⟨List.perm_insertionSort _ db, List.sorted_insertionSort _ db⟩,
   fun db => ⟨List.perm_insertionSort _ db, List.sorted_insertionSort _ db⟩,
   fun db => ⟨List.perm_insertionSort _ db, List.sorted_insertionSort _ db⟩,
   fun db => ⟨List.perm_insertionSort _ db, List.sorted_insertionSort _ db⟩⟩

/-- C2 counterexample: neither `mark_as_read` nor `mark_as_read_by_type` has a
status guard, so on a record that is already Read with `read_at = some 5` each
restamps `read_at` to the new `now`, overwriting the already-set timestamp. -/
theorem c2_counterexample :
    nEx.status = readStatus ∧ nEx.read_at = some 5 ∧ nEx.type_ = 2
    ∧ NotificationRecord.mark_as_read [nEx] "n1" 10
        = .ok [{ nEx with read_at := some 10 }]
    ∧ NotificationRecord.mark_as_read_by_type [nEx] 2 10
        = .ok [{ nEx with read_at := some 10 }]
    ∧ ({ nEx with read_at := some 10 } : NotificationRecord).read_at ≠ nEx.read_at :=
  ⟨rfl, rfl, rfl, by decide, by decide, by decide⟩

/-- C2 (amended): `mark_all_as_read` filters on `status = Unread` and so never
touches a record that is already Read (its `read_at` survives untouched); but
`mark_as_read` (and likewise `mark_as_read_by_type`) matches on id (type)
alone and restamps `read_at = now` on every matching row, overwriting an
already-set `read_at` of a record that is already Read. -/
theorem c2_read_at_policy (db : List NotificationRecord) (i : Nat)
    (r : NotificationRecord) (id : String) (type_ now : Int)
    (h : db[i]? = some r) :
    (r.status = readStatus →
      (NotificationRecord.mark_all_as_read db now).map (fun l => l[i]?) = .ok (some r))
    ∧ (r.id = id →
      (NotificationRecord.mark_as_read db id now).map
          (fun l => (l[i]?).map (fun w => (w.read_at, w.status)))
        = .ok (some (some now, readStatus)))
    ∧ (r.type_ = type_ →
      (NotificationRecord.mark_as_read_by_type db type_ now).map
          (fun l => (l[i]?).map (fun w => (w.read_at, w.status)))
        = .ok (some (some now, readStatus))) := by
  refine ⟨?_, ?_, ?_⟩
  · intro hr
    simp only [NotificationRecord.mark_all_as_read, Except.map]
    rw [List.getElem?_map, h, Option.map_some']
    simp [hr, readStatus, unreadStatus]
  · intro hid
    simp only [NotificationRecord.mark_as_read, Except.map]
    rw [List.getElem?_map, h, Option.map_some']
    simp [hid]
  · intro hty
    simp only [NotificationRecord.mark_as_read_by_type, Except.map]
    rw [List.getElem?_map, h, Option.map_some']
    simp [hty]

/-- Witness for `c2_read_at_policy` on the concrete store `[nEx]`: the
already-read record survives `mark_all_as_read` unchanged, while
`mark_as_read` and `mark_as_read_by_type` each restamp its `read_at` to the
new `now`. -/
theorem c2_read_at_policy_witness :
    ([nEx][0]? = some nEx)
    ∧ (NotificationRecord.mark_all_as_read [nEx] 10).map (fun l => l[0]?) = .ok (some nEx)
    ∧ (NotificationRecord.mark_as_read [nEx] "n1" 10).map
        (fun l => (l[0]?).map (fun w => (w.read_at, w.status)))
      = .ok (some (some 10, readStatus))
    ∧ (NotificationRecord.mark_as_read_by_type [nEx] 2 10).map
        (fun l => (l[0]?).map (fun w => (w.read_at, w.status)))
      = .ok (some (some 10, readStatus)) :=
  ⟨rfl, (c2_read_at_policy [nEx] 0 nEx "n1" 2 10 rfl).1 rfl,
    (c2_read_at_policy [nEx] 0 nEx "n1" 2 10 rfl).2.1 rfl,
    (c2_read_at_policy [nEx] 0 nEx "n1" 2 10 rfl).2.2 rfl⟩

/-- C5: `KVStore::set` is an upsert — `set k v1` then `set k v2` then
`get k d` yields `v2`, the stored `created_at` is the first set's timestamp,
`updated_at` the second's; and `get` on an absent key returns the supplied
default (it is total, never an error). -/
theorem c5_kv_upsert (db : List KVRow) (k v1 v2 d : String) (t1 t2 : Int)
    (habs : ∀ r ∈ db, r.key ≠ k) :
    KVStore.get db k d = d
    ∧ KVStore.get (KVStore.set (KVStore.set db k v1 t1) k v2 t2) k d = v2
    ∧ (KVStore.set (KVStore.set db k v1 t1) k v2 t2).find? (fun r => r.key = k)
        = some { key := k, value := v2, created_at := t1, updated_at := t2 } := by
  have hany : (db.any fun r => decide (r.key = k)) = false := by
    rw [List.any_eq_false]
    intro r hr
    simp [habs r hr]
  have hset1 : KVStore.set db k v1 t1
      = db ++ [{ key := k, value := v1, created_at := t1, updated_at := t1 }] := by
    simp only [KVStore.set]
    rw [if_neg (by simp [hany])]
  have hset2 : KVStore.set (KVStore.set db k v1 t1) k v2 t2
      = db ++ [{ key := k, value := v2, created_at := t1, updated_at := t2 }] := by
    rw [hset1]
    simp only [KVStore.set]
    rw [if_pos (by simp), List.map_append,
      map_fixed _ db (fun r hr => if_neg (habs r hr))]
    simp
  have hfind : List.find? (fun r => decide (r.key = k))
      (db ++ [({ key := k, value := v2, created_at := t1, updated_at := t2 } : KVRow)])
      = some { key := k, value := v2, created_at := t1, updated_at := t2 } := by
    rw [find?_append_none _ db _ (fun r hr => by simp [habs r hr])]
    simp
  refine ⟨?_, ?_, ?_⟩
  · have hnone : db.find? (fun r => decide (r.key = k)) = none :=
      List.find?_eq_none.mpr (fun r hr => by simp [habs r hr])
    simp [KVStore.get, hnone]
  · rw [hset2]
    simp only [KVStore.get]
    rw [hfind]
  · rw [hset2]
    exact hfind

/-- Witness for `c5_kv_upsert` on a store holding one unrelated key. -/
theorem c5_kv_upsert_witness :
    ([kvEx].all (fun r => r.key ≠ "k") = true)
    ∧ KVStore.get [kvEx] "k" "d" = "d"
    ∧ KVStore.get (KVStore.set (KVStore.set [kvEx] "k" "a" 1) "k" "b" 2) "k" "d" = "b"
    ∧ (KVStore.set (KVStore.set [kvEx] "k" "a" 1) "k" "b" 2).find? (fun r => r.key = "k")
        = some { key := "k", value := "b", created_at := 1, updated_at := 2 } :=
  ⟨by decide,
    (c5_kv_upsert [kvEx] "k" "a" "b" "d" 1 2 (by decide)).1,
    (c5_kv_upsert [kvEx] "k" "a" "b" "d" 1 2 (by decide)).2.1,
    (c5_kv_upsert [kvEx] "k" "a" "b" "d" 1 2 (by decide)).2.2⟩

/-- C6: `update` and `delete` on an id (key, name) that is absent from the
store succeed with a non-error result and leave the entire store unchanged
(zero rows affected), for every repository. -/
theorem c6_missing_id_noops
    (m : Matter) (dbm : List Matter) (hm : ∀ r ∈ dbm, r.id ≠ m.id)
    (t : Todo) (dbt : List Todo) (ht : ∀ r ∈ dbt, r.id ≠ t.id)
    (rt : RepeatTask) (dbr : List RepeatTask) (hrt : ∀ r ∈ dbr, r.id ≠ rt.id)
    (n : NotificationRecord) (dbn : List NotificationRecord) (hn : ∀ r ∈ dbn, r.id ≠ n.id)
    (k : String) (dbk : List KVRow) (hk : ∀ r ∈ dbk, r.key ≠ k)
    (g : String) (dbg : List Tag) (hg : ∀ r ∈ dbg, r.name ≠ g) :
    Matter.update dbm m = .ok dbm ∧ Matter.delete dbm m.id = .ok dbm
    ∧ Todo.update dbt t = .ok dbt ∧ Todo.delete dbt t.id = .ok dbt
    ∧ RepeatTask.update dbr rt = .ok dbr ∧ RepeatTask.delete dbr rt.id = .ok dbr
    ∧ NotificationRecord.update dbn n = .ok dbn
    ∧ NotificationRecord.delete dbn n.id = .ok dbn
    ∧ KVStore.delete dbk k = .ok dbk
    ∧ Tag.delete dbg g = .ok dbg := by
  refine ⟨?_, ?_, ?_, ?_, ?_, ?_, ?_, ?_, ?_, ?_⟩
  · simp only [Matter.update]
    rw [map_fixed _ dbm (fun r hr => if_neg (hm r hr))]
  · simp only [Matter.delete]
    rw [List.filter_eq_self.mpr (fun r hr => decide_eq_true (hm r hr))]
  · simp only [Todo.update]
    rw [map_fixed _ dbt (fun r hr => if_neg (ht r hr))]
  · simp only [Todo.delete]
    rw [List.filter_eq_self.mpr (fun r hr => decide_eq_true (ht r hr))]
  · simp only [RepeatTask.update]
    rw [map_fixed _ dbr (fun r hr => if_neg (hrt r hr))]
  · simp only [RepeatTask.delete]
    rw [List.filter_eq_self.mpr (fun r hr => decide_eq_true (hrt r hr))]
  · simp only [NotificationRecord.update]
    rw [map_fixed _ dbn (fun r hr => if_neg (hn r hr))]
  · simp only [NotificationRecord.delete]
    rw [List.filter_eq_self.mpr (fun r hr => decide_eq_true (hn r hr))]
  · simp only [KVStore.delete]
    rw [List.filter_eq_self.mpr (fun r hr => decide_eq_true (hk r hr))]
  · simp only [Tag.delete]
    rw [List.filter_eq_self.mpr (fun r hr => decide_eq_true (hg r hr))]

/-- Witness for `c6_missing_id_noops`: singleton stores, id "Z" absent. -/
theorem c6_missing_id_noops_witness :
    ([mEx].all (fun r => r.id ≠ "Z") = true)
    ∧ ([todoEx].all (fun r => r.id ≠ "Z") = true)
    ∧ ([rtEx].all (fun r => r.id ≠ "Z") = true)
    ∧ ([nEx].all (fun r => r.id ≠ "Z") = true)
    ∧ ([kvEx].all (fun r => r.key ≠ "Z") = true)
    ∧ ([tagEx].all (fun r => r.name ≠ "Z") = true)
    ∧ (Matter.update [mEx] { mEx with id := "Z" } = .ok [mEx]
      ∧ Matter.delete [mEx] ({ mEx with id := "Z" } : Matter).id = .ok [mEx]
      ∧ Todo.update [todoEx] { todoEx with id := "Z" } = .ok [todoEx]
      ∧ Todo.delete [todoEx] ({ todoEx with id := "Z" } : Todo).id = .ok [todoEx]
      ∧ RepeatTask.update [rtEx] { rtEx with id := "Z" } = .ok [rtEx]
      ∧ RepeatTask.delete [rtEx] ({ rtEx with id := "Z" } : RepeatTask).id = .ok [rtEx]
      ∧ NotificationRecord.update [nEx] { nEx with id := "Z" } = .ok [nEx]
      ∧ NotificationRecord.delete [nEx]
          ({ nEx with id := "Z" } : NotificationRecord).id = .ok [nEx]
      ∧ KVStore.delete [kvEx] "Z" = .ok [kvEx]
      ∧ Tag.delete [tagEx] "Z" = .ok [tagEx]) :=
  ⟨by decide, by decide, by decide, by decide, by decide, by decide,
    c6_missing_id_noops { mEx with id := "Z" } [mEx] (by decide)
      { todoEx with id := "Z" } [todoEx] (by decide)
      { rtEx with id := "Z" } [rtEx] (by decide)
      { nEx with id := "Z" } [nEx] (by decide)
      "Z" [kvEx] (by decide) "Z" [tagEx] (by decide)⟩

/-- `INSERT OR IGNORE` on a name already present leaves the table unchanged. -/
theorem tag_createVal_of_present (db : List Tag) (name : String) (nowC nowL : Int)
    (h : (db.any fun r => decide (r.name = name)) = true) :
    Tag.createVal db name nowC nowL = db := by
  simp only [Tag.createVal]
  rw [if_pos h]

/-- C8: `Tag::create` is idempotent — after one create the name is present in
exactly one row, and a second create succeeds (returns `ok`, not a constraint
violation) and leaves the table unchanged. -/
theorem c8_tag_create_idempotent (db : List Tag) (name : String) (t1 t2 t3 t4 : Int)
    (h : (db.map (fun r => r.name)).Nodup) :
    Tag.create db name t1 t2 = .ok (Tag.createVal db name t1 t2)
    ∧ Tag.create (Tag.createVal db name t1 t2) name t3 t4
        = .ok (Tag.createVal db name t1 t2)
    ∧ ((Tag.createVal db name t1 t2).filter (fun r => r.name = name)).length = 1 := by
  have hpresent : ((Tag.createVal db name t1 t2).any fun r => decide (r.name = name))
      = true := by
    by_cases hmem : (db.any fun r => decide (r.name = name)) = true
    · rw [tag_createVal_of_present db name t1 t2 hmem]
      exact hmem
    · simp only [Tag.createVal, if_neg hmem]
      simp
  refine ⟨rfl, ?_, ?_⟩
  · simp only [Tag.create]
    rw [tag_createVal_of_present _ name t3 t4 hpresent]
  · by_cases hmem : (db.any fun r => decide (r.name = name)) = true
    · rw [tag_createVal_of_present db name t1 t2 hmem]
      exact tag_filter_len_one db name h hmem
    · have hnil : db.filter (fun r => decide (r.name = name)) = [] :=
        List.filter_eq_nil_iff.mpr (fun r hr => by
          simp only [decide_eq_true_eq]
          intro hrn
          exact hmem (List.any_eq_true.mpr ⟨r, hr, by simp [hrn]⟩))
      simp only [Tag.createVal, if_neg hmem]
      rw [List.filter_append, hnil]
      simp

/-- Witness for `c8_tag_create_idempotent`: creating "y" twice over a table
holding only "x". -/
theorem c8_tag_create_idempotent_witness :
    (([tagEx].map (fun r => r.name)).Nodup)
    ∧ Tag.create [tagEx] "y" 1 2 = .ok (Tag.createVal [tagEx] "y" 1 2)
    ∧ Tag.create (Tag.createVal [tagEx] "y" 1 2) "y" 3 4
        = .ok (Tag.createVal [tagEx] "y" 1 2)
    ∧ ((Tag.createVal [tagEx] "y" 1 2).filter (fun r => r.name = "y")).length = 1 :=
  ⟨by decide,
    (c8_tag_create_idempotent [tagEx] "y" 1 2 3 4 (by decide)).1,
    (c8_tag_create_idempotent [tagEx] "y" 1 2 3 4 (by decide)).2.1,
    (c8_tag_create_idempotent [tagEx] "y" 1 2 3 4 (by decide)).2.2⟩

/-- C10: `NotificationRecord::update` rewrites every column of the matching
row from the passed record except `read_at` and `created_at` (and the key
`id`); whatever the passed record carries there, each stored row keeps its
`read_at` and `created_at`, including when the update changes `status`. -/
theorem c10_notification_update_frame (db : List NotificationRecord)
    (n : NotificationRecord) (i : Nat) :
    (NotificationRecord.update db n).map
        (fun l => (l[i]?).map (fun w => (w.read_at, w.created_at)))
      = .ok ((db[i]?).map (fun w => (w.read_at, w.created_at))) := by
  simp only [NotificationRecord.update, Except.map]
  rw [List.getElem?_map]
  cases hw : db[i]? with
  | none => rfl
  | some w =>
    rw [Option.map_some', Option.map_some', Option.map_some']
    by_cases hid : w.id = n.id <;> simp [hid]

end Fates
